import Mathlib

/-!
Shallow embedding of the `rtx doctor` subcommand (`src/cli/doctor.rs`).

The doctor command gathers state from several collaborators (toolset
builder, shell detector, process environment, configuration subsystem,
plugin registry with git metadata, release checker, activation state),
renders a report, runs a fixed battery of checks, and exits with status
0 or 1.  Collaborator results are passed in explicitly as data; terminal
styling (`console::style`) only wraps text in escape sequences when a
terminal is attached, so it is modelled as the identity on the text.
-/

namespace Rtx

/-- Model of `console::style(s).bold()` — presentation only (escape sequences
are emitted only when a terminal is attached), so modelled as the identity. -/
def styleBold (s : String) : String := s

/-- Model of `console::style(s).red().bold()` — presentation only, identity. -/
def styleRedBold (s : String) : String := s

/-- Model of `console::style(s).yellow().for_stderr()` — presentation only,
identity. -/
def styleYellowStderr (s : String) : String := s

/-- Model of `console::pad_str(s, width, Alignment::Left, None)`: left-align `s` in a
field of `width` by appending spaces; a string already at least `width` wide
is returned unchanged (no truncation, since the truncation argument is `None`). -/
def pad_str (s : String) (width : Nat) : String :=
  if s.length < width then s ++ String.mk (List.replicate (width - s.length) ' ') else s

/-- Model of `indenter::indented(&mut out).with_str("  ")`: prefix every non-empty
line with two spaces (the indenter writer emits the prefix before the first
character of a line, so a trailing or empty line receives none). -/
def indent (s : String) : String :=
  String.intercalate "\n" ((s.splitOn "\n").map (fun l => if l = "" then l else "  " ++ l))

/-- One entry of `config.plugins` (registry iteration order is the order of
the list), together with the responses of the `Git` collaborator for its
`plugin_path`: `get_remote_url` and `current_sha_short`. -/
structure Plugin where
  name : String
  plugin_path : String
  installed : Bool
  remote_url : Option String
  sha_short : Except String String
  deriving Repr

/-- The slice of `Config` read by the doctor command. -/
structure Config where
  settings : String
  config_files : List String
  plugins : List Plugin
  activated : Bool
  deriving Repr

/-- Source `rtx_version()`: bold header plus the running version. -/
def rtx_version (version : String) : String :=
  styleBold "rtx version:\n" ++ "  " ++ version ++ "\n"

/-- Model of Rust `str::ends_with(&str)`: the pattern is a suffix of the
string.  Rust compares the UTF-8 byte suffix; for valid UTF-8 this agrees
with the character-list suffix used here (UTF-8 is self-synchronising). -/
def ends_with (s pat : String) : Bool :=
  pat.data.isSuffixOf s.data

/-- The shell-command selection inside `shell()`:
`if env::SHELL.ends_with(shell.as_str()) { &*env::SHELL } else { &shell }`. -/
def shell_cmd_choice (envShell detected : String) : String :=
  if ends_with envShell detected then envShell else detected

/-- Source `shell()`: render the shell section.  `shellType` is the result of
`ShellType::load().map(|s| s.to_string())`, `envShell` is `env::SHELL`, and
`vcmd c` is the result of `cmd!(c, "--version").read()`. -/
def shell (shellType : Option String) (envShell : String)
    (vcmd : String → Except String String) : String :=
  let s := styleBold "shell:\n"
  match shellType with
  | some sh =>
      let shell_cmd := shell_cmd_choice envShell sh
      let version :=
        match vcmd shell_cmd with
        | .ok v => v
        | .error e => "failed to get shell version: " ++ e
      s ++ indent (shell_cmd ++ "\n" ++ version ++ "\n")
  | none => s ++ "  (unknown)\n"

/-- One `  KEY=VALUE` row of the environment section. -/
def env_var_row (kv : String × String) : String :=
  "  " ++ kv.1 ++ "=" ++ kv.2 ++ "\n"

/-- Source `rtx_env_vars()`: filter the process environment to `RTX_`-prefixed
keys, then render the header, a `(none)` marker when the filtered list is
empty, and one row per variable in iteration order. -/
def rtx_env_vars (vars : List (String × String)) : String :=
  let vs := vars.filter (fun kv => kv.1.startsWith "RTX_")
  let s := styleBold "rtx environment variables:\n"
  let s := if vs.isEmpty then s ++ "  (none)\n" else s
  vs.foldl (fun s kv => s ++ env_var_row kv) s

/-- One `  path` row of the config-files section. -/
def config_file_row (f : String) : String :=
  "  " ++ f ++ "\n"

/-- Source `render_config_files()`: header, then one row per config file,
iterating `config.config_files.keys().rev()` — the discovery order
reversed. -/
def render_config_files (config : Config) : String :=
  (config.config_files.reverse).foldl (fun s f => s ++ config_file_row f)
    (styleBold "config files:\n")

/-- Source expression `config.plugins.values().map(|p| p.name.len()).max().unwrap_or(0)`. -/
def max_plugin_name_len (config : Config) : Nat :=
  (config.plugins.map (fun p => p.name.length)).foldl max 0

/-- The row rendered for one plugin inside `render_plugins()`: padded name,
then, when a remote URL exists, the URL and the short revision (with
`(unknown)` substituted when the revision lookup fails). -/
def plugin_row (p : Plugin) (width : Nat) : String :=
  let padded_name := pad_str p.name width
  match p.remote_url with
  | some url =>
      let sha :=
        match p.sha_short with
        | .ok v => v
        | .error _ => "(unknown)"
      "  " ++ padded_name ++ " " ++ url ++ "#" ++ sha ++ "\n"
  | none => "  " ++ padded_name ++ "\n"

/-- Source `render_plugins()`: header, then one row per registered plugin in
registry order, all padded to the registry-wide maximum name length. -/
def render_plugins (config : Config) : String :=
  config.plugins.foldl
    (fun s p => s ++ plugin_row p (max_plugin_name_len config))
    (styleBold "plugins:\n")

/-- The check-1 message for one uninstalled plugin. -/
def not_installed_msg (p : Plugin) : String :=
  "plugin " ++ p.name ++ " is not installed"

/-- The check-2 message: names the latest available and the running version. -/
def new_version_msg (latest pkgVersion : String) : String :=
  "new rtx version " ++ latest ++ " available, currently on " ++ pkgVersion

/-- The check-3 message (activation instructions). -/
def activation_msg : String :=
  "rtx is not activated, run `" ++ styleYellowStderr "rtx activate"
    ++ "` for setup instructions"

/-- Body of the registry loop in `Doctor::run`:
`if !plugin.is_installed() { checks.push(...); continue; }`. -/
def push_uninstalled (acc : List String) (p : Plugin) : List String :=
  if !p.installed then acc ++ [not_installed_msg p] else acc

/-- The check pipeline of `Doctor::run`: push one problem per uninstalled
plugin while iterating the registry, then the optional new-version problem
(`latest` is the result of `cli::version::check_for_new_version()`), then
the optional activation problem. -/
def collect_checks (config : Config) (latest : Option String)
    (pkgVersion : String) : List String :=
  let checks : List String := []
  let checks := config.plugins.foldl push_uninstalled checks
  let checks :=
    match latest with
    | some l => checks ++ [new_version_msg l pkgVersion]
    | none => checks
  let checks := if !config.activated then checks ++ [activation_msg] else checks
  checks

/-- Everything `Doctor::run` reads: the config slice, the process
environment and `env::SHELL`, the shell detector, the subprocess runner for
the version query, the release checker, the toolset-builder result (its
rendered summary on success), the display version `*VERSION`, and the
compile-time `CARGO_PKG_VERSION`. -/
structure DoctorInput where
  config : Config
  envVars : List (String × String)
  envShell : String
  shellType : Option String
  vcmd : String → Except String String
  latestVersion : Option String
  buildResult : Except String String
  version : String
  pkgVersion : String

/-- The observable outcome of one `Doctor::run` invocation: either the
propagated toolset-construction error (nothing rendered), or the full
rendered output together with the process exit status (0 for the `Ok(())`
return, 1 for the `exit(1)` call, which the code reaches only after the
whole report has been written). -/
inductive RunOutcome where
  | err (e : String)
  | done (output : String) (code : Nat)
  deriving Repr

/-- Source `Doctor::run`: build the toolset (propagating failure), render each
view in order (each `rtxprintln!` appends a trailing newline), collect the
checks, and finish with either the confirmation line and status 0 or the
count summary, the problem lines, and status 1. -/
def Doctor.run (inp : DoctorInput) : RunOutcome :=
  match inp.buildResult with
  | .error e => .err e
  | .ok ts =>
    let out := ""
    let out := out ++ rtx_version inp.version ++ "\n"
    let out := out ++ shell inp.shellType inp.envShell inp.vcmd ++ "\n"
    let out := out ++ rtx_env_vars inp.envVars ++ "\n"
    let out := out ++ styleBold "settings:" ++ "\n" ++ indent inp.config.settings ++ "\n" ++ "\n"
    let out := out ++ render_config_files inp.config ++ "\n"
    let out := out ++ render_plugins inp.config ++ "\n"
    let out := out ++ styleBold "toolset:" ++ "\n" ++ indent ts ++ "\n" ++ "\n"
    let checks := collect_checks inp.config inp.latestVersion inp.pkgVersion
    if checks.isEmpty then
      .done (out ++ "No problems found" ++ "\n") 0
    else
      let checks_plural := if checks.length = 1 then "" else "s"
      let summary := toString checks.length ++ " problem" ++ checks_plural ++ " found:"
      let out := out ++ styleRedBold summary ++ "\n"
      let out := checks.foldl (fun o c => o ++ (c ++ "\n" ++ "\n")) out
      .done out 1

/-- The report prefix written by `Doctor::run` before the check summary:
the seven `rtxprintln!` calls, in order, each with its trailing newline. -/
def doctor_views (inp : DoctorInput) (ts : String) : String :=
  "" ++ rtx_version inp.version ++ "\n"
     ++ shell inp.shellType inp.envShell inp.vcmd ++ "\n"
     ++ rtx_env_vars inp.envVars ++ "\n"
     ++ styleBold "settings:" ++ "\n" ++ indent inp.config.settings ++ "\n" ++ "\n"
     ++ render_config_files inp.config ++ "\n"
     ++ render_plugins inp.config ++ "\n"
     ++ styleBold "toolset:" ++ "\n" ++ indent ts ++ "\n" ++ "\n"

lemma join_cons (s : String) (l : List String) :
    String.join (s :: l) = s ++ String.join l := by
  apply String.ext
  simp

lemma foldl_append_join {α : Type} (f : α → String) :
    ∀ (l : List α) (init : String),
      l.foldl (fun s x => s ++ f x) init = init ++ String.join (l.map f)
  | [], init => by
      rw [List.foldl_nil, List.map_nil,
        show String.join ([] : List String) = "" from rfl, String.append_empty]
  | x :: xs, init => by
      simp only [List.foldl_cons, List.map_cons, join_cons,
        foldl_append_join f xs (init ++ f x), String.append_assoc]

lemma push_uninstalled_false (acc : List String) (p : Plugin)
    (hp : p.installed = false) :
    push_uninstalled acc p = acc ++ [not_installed_msg p] := by
  simp [push_uninstalled, hp]

lemma push_uninstalled_true (acc : List String) (p : Plugin)
    (hp : p.installed = true) :
    push_uninstalled acc p = acc := by
  simp [push_uninstalled, hp]

lemma foldl_checks_eq (l : List Plugin) (acc : List String) :
    l.foldl push_uninstalled acc
      = acc ++ (l.filter (fun p => !p.installed)).map not_installed_msg := by
  induction l generalizing acc with
  | nil => simp
  | cons p ps ih =>
      rw [List.foldl_cons, List.filter_cons]
      cases hp : p.installed
      · rw [push_uninstalled_false acc p hp, ih]
        simp [hp]
      · rw [push_uninstalled_true acc p hp, ih]
        simp [hp]

/-- The check list decomposes into the three checks in evaluation order. -/
lemma collect_checks_eq (c : Config) (latest : Option String) (pkg : String) :
    collect_checks c latest pkg
      = (c.plugins.filter (fun p => !p.installed)).map not_installed_msg
        ++ (match latest with
            | some l => [new_version_msg l pkg]
            | none => [])
        ++ (if c.activated then [] else [activation_msg]) := by
  simp only [collect_checks]
  rw [foldl_checks_eq]
  cases latest <;> cases hA : c.activated <;> simp [hA]

lemma seed_le_foldl_max : ∀ (l : List Nat) (a : Nat), a ≤ l.foldl max a
  | [], _ => le_refl _
  | x :: xs, a => le_trans (le_max_left a x) (seed_le_foldl_max xs (max a x))

lemma mem_le_foldl_max : ∀ (l : List Nat) (a x : Nat), x ∈ l → x ≤ l.foldl max a
  | [], _, _, hx => absurd hx (List.not_mem_nil _)
  | y :: ys, a, x, hx => by
      rcases List.mem_cons.mp hx with h | h
      · subst h
        exact le_trans (le_max_right a x) (seed_le_foldl_max ys (max a x))
      · exact mem_le_foldl_max ys (max a y) x h

lemma name_le_max (c : Config) (p : Plugin) (hp : p ∈ c.plugins) :
    p.name.length ≤ max_plugin_name_len c :=
  mem_le_foldl_max _ 0 _ (List.mem_map_of_mem _ hp)

lemma pad_str_length (s : String) (w : Nat) (h : s.length ≤ w) :
    (pad_str s w).length = w := by
  unfold pad_str
  split
  · rename_i hlt
    rw [String.length_append]
    have hm : (String.mk (List.replicate (w - s.length) ' ')).length
        = (List.replicate (w - s.length) ' ').length := rfl
    rw [hm, List.length_replicate]
    omega
  · rename_i hnlt
    omega

/-- Master case analysis of `Doctor::run` after the toolset build succeeds. -/
lemma run_ok_eq (inp : DoctorInput) (ts : String) (h : inp.buildResult = .ok ts) :
    Doctor.run inp =
      (if (collect_checks inp.config inp.latestVersion inp.pkgVersion).isEmpty then
        RunOutcome.done (doctor_views inp ts ++ "No problems found" ++ "\n") 0
      else
        RunOutcome.done (doctor_views inp ts
          ++ styleRedBold
              (toString (collect_checks inp.config inp.latestVersion inp.pkgVersion).length
                ++ " problem"
                ++ (if (collect_checks inp.config inp.latestVersion inp.pkgVersion).length = 1
                    then "" else "s")
                ++ " found:") ++ "\n"
          ++ String.join
              ((collect_checks inp.config inp.latestVersion inp.pkgVersion).map
                (fun c => c ++ "\n" ++ "\n"))) 1) := by
  cases hC : (collect_checks inp.config inp.latestVersion inp.pkgVersion).isEmpty with
  | true => simp only [Doctor.run, h, hC, doctor_views, if_true]
  | false =>
      simp only [Doctor.run, h, hC, doctor_views, if_false, Bool.false_eq_true]
      rw [foldl_append_join]

/-! Concrete collaborator states used to instantiate the theorems. -/

def cleanConfig : Config :=
  { settings := "verbose = false", config_files := ["/root/.tool-versions", "/etc/rtx.toml"],
    plugins := [], activated := true }

def cleanInput : DoctorInput :=
  { config := cleanConfig, envVars := [("PATH", "/usr/bin")], envShell := "/bin/zsh",
    shellType := none, vcmd := fun _ => .error "spawn failed", latestVersion := none,
    buildResult := .ok "nodejs 18.0.0", version := "1.20.0", pkgVersion := "1.20.0" }

def goPlugin : Plugin :=
  { name := "go", plugin_path := "/plugins/go", installed := false,
    remote_url := none, sha_short := .error "no repo" }

def nodePlugin : Plugin :=
  { name := "node", plugin_path := "/plugins/node", installed := true,
    remote_url := some "github.com/x/node", sha_short := .error "git failed" }

def problemConfig : Config :=
  { settings := "", config_files := [], plugins := [nodePlugin, goPlugin],
    activated := false }

def problemInput : DoctorInput :=
  { config := problemConfig, envVars := [], envShell := "/bin/bash",
    shellType := some "bash", vcmd := fun _ => .ok "bash 5.0",
    latestVersion := some "2.0.0", buildResult := .ok "ts",
    version := "1.20.0", pkgVersion := "1.20.0" }

def errInput : DoctorInput :=
  { cleanInput with buildResult := .error "could not build toolset" }

/-- C1: after the toolset build succeeds, an empty problem list renders the
confirmation line and the run finishes with status 0, while a non-empty
list renders a count summary whose noun is singular exactly for one
problem, followed by every problem message, and only then finishes with
status 1 — the exit outcome carries the complete output. -/
theorem C1_check_pipeline_outcome (inp : DoctorInput) (ts : String)
    (h : inp.buildResult = .ok ts) :
    (collect_checks inp.config inp.latestVersion inp.pkgVersion = [] →
      Doctor.run inp
        = .done (doctor_views inp ts ++ "No problems found" ++ "\n") 0) ∧
    (collect_checks inp.config inp.latestVersion inp.pkgVersion ≠ [] →
      Doctor.run inp
        = .done (doctor_views inp ts
            ++ styleRedBold
                (toString (collect_checks inp.config inp.latestVersion inp.pkgVersion).length
                  ++ " problem"
                  ++ (if (collect_checks inp.config inp.latestVersion inp.pkgVersion).length = 1
                      then "" else "s")
                  ++ " found:") ++ "\n"
            ++ String.join
                ((collect_checks inp.config inp.latestVersion inp.pkgVersion).map
                  (fun c => c ++ "\n" ++ "\n"))) 1) := by
  constructor
  · intro hc
    rw [run_ok_eq inp ts h]
    simp [hc]
  · intro hc
    rw [run_ok_eq inp ts h]
    simp [hc]

/-- C1 witness: a run with zero problems and a run with three problems. -/
theorem C1_check_pipeline_outcome_witness :
    Doctor.run cleanInput
      = .done (doctor_views cleanInput "nodejs 18.0.0" ++ "No problems found" ++ "\n") 0 ∧
    Doctor.run problemInput
      = .done (doctor_views problemInput "ts"
          ++ styleRedBold
              (toString (collect_checks problemInput.config problemInput.latestVersion
                  problemInput.pkgVersion).length
                ++ " problem"
                ++ (if (collect_checks problemInput.config problemInput.latestVersion
                      problemInput.pkgVersion).length = 1 then "" else "s")
                ++ " found:") ++ "\n"
          ++ String.join
              ((collect_checks problemInput.config problemInput.latestVersion
                  problemInput.pkgVersion).map (fun c => c ++ "\n" ++ "\n"))) 1 :=
  ⟨(C1_check_pipeline_outcome cleanInput "nodejs 18.0.0" rfl).1 rfl,
   (C1_check_pipeline_outcome problemInput "ts" rfl).2 (by decide)⟩

/-- C2: the problem list is built in fixed evaluation order — one problem
per uninstalled plugin in registry order (the uninstalled plugins form an
order-preserving sublist of the registry), then at most one new-version
problem, then at most one activation problem — and the run prints the
problems by folding exactly that list, so display order equals evaluation
order. -/
theorem C2_fixed_problem_order (c : Config) (latest : Option String) (pkg : String) :
    collect_checks c latest pkg
      = (c.plugins.filter (fun p => !p.installed)).map not_installed_msg
        ++ (match latest with
            | some l => [new_version_msg l pkg]
            | none => [])
        ++ (if c.activated then [] else [activation_msg]) ∧
    (c.plugins.filter (fun p => !p.installed)).Sublist c.plugins ∧
    (match latest with
      | some l => [new_version_msg l pkg]
      | none => ([] : List String)).length ≤ 1 ∧
    (if c.activated then ([] : List String) else [activation_msg]).length ≤ 1 ∧
    (∀ inp : DoctorInput, ∀ ts, inp.buildResult = .ok ts →
      collect_checks inp.config inp.latestVersion inp.pkgVersion ≠ [] →
      ∃ pre, Doctor.run inp
        = .done (pre ++ String.join
            ((collect_checks inp.config inp.latestVersion inp.pkgVersion).map
              (fun ck => ck ++ "\n" ++ "\n"))) 1) := by
  refine ⟨collect_checks_eq c latest pkg, List.filter_sublist _, ?_, ?_, ?_⟩
  · cases latest <;> simp
  · cases c.activated <;> simp
  · intro inp ts h hc
    rw [run_ok_eq inp ts h]
    simp only [List.isEmpty_eq_true, hc, if_false]
    exact ⟨_, rfl⟩

/-- C2 witness: the registry `[node (installed), go (uninstalled)]` with a
newer release and inactive shell integration yields exactly the three
problems in evaluation order, and a concrete run prints them in order. -/
theorem C2_fixed_problem_order_witness :
    collect_checks problemConfig (some "2.0.0") "1.20.0"
      = ["plugin go is not installed",
         "new rtx version 2.0.0 available, currently on 1.20.0",
         "rtx is not activated, run `rtx activate` for setup instructions"] ∧
    (∃ pre, Doctor.run problemInput
      = .done (pre ++ String.join
          ((collect_checks problemInput.config problemInput.latestVersion
              problemInput.pkgVersion).map (fun ck => ck ++ "\n" ++ "\n"))) 1) := by
  constructor
  · rw [(C2_fixed_problem_order problemConfig (some "2.0.0") "1.20.0").1]
    decide
  · exact (C2_fixed_problem_order problemConfig (some "2.0.0") "1.20.0").2.2.2.2
      problemInput "ts" rfl (by decide)

/-- C3: toolset construction is the only fatal step: a build failure makes
the run return exactly that error, with no rendered output (the error
outcome carries none), while after a successful build the run always
completes with a rendered report and an exit status. -/
theorem C3_toolset_failure_only_fatal (inp : DoctorInput) :
    (∀ e, inp.buildResult = .error e → Doctor.run inp = .err e) ∧
    (∀ ts, inp.buildResult = .ok ts →
      ∃ out code, Doctor.run inp = .done out code) := by
  constructor
  · intro e he
    simp [Doctor.run, he]
  · intro ts h
    rw [run_ok_eq inp ts h]
    cases hC : (collect_checks inp.config inp.latestVersion inp.pkgVersion).isEmpty with
    | true => exact ⟨_, _, rfl⟩
    | false => exact ⟨_, _, rfl⟩

/-- C3 witness: a failing build propagates its error; a succeeding build
always reaches the report. -/
theorem C3_toolset_failure_only_fatal_witness :
    Doctor.run errInput = .err "could not build toolset" ∧
    ∃ out code, Doctor.run problemInput = .done out code :=
  ⟨(C3_toolset_failure_only_fatal errInput).1 "could not build toolset" rfl,
   (C3_toolset_failure_only_fatal problemInput).2 "ts" rfl⟩

/-- C10: once toolset construction has succeeded the run never returns an
error: the outcome is always `done`, with exit status 0 exactly when the
collected problem list is empty and exit status 1 otherwise. -/
theorem C10_ok_or_exit1_after_build (inp : DoctorInput) (ts : String)
    (h : inp.buildResult = .ok ts) :
    ∃ out : String, Doctor.run inp = .done out
      (if (collect_checks inp.config inp.latestVersion inp.pkgVersion).isEmpty
       then 0 else 1) := by
  rw [run_ok_eq inp ts h]
  cases hC : (collect_checks inp.config inp.latestVersion inp.pkgVersion).isEmpty with
  | true => exact ⟨_, rfl⟩
  | false => exact ⟨_, rfl⟩

/-- C10 witness: a concrete run with problems finishes with status 1. -/
theorem C10_ok_or_exit1_after_build_witness :
    ∃ out : String, Doctor.run problemInput = .done out
      (if (collect_checks problemInput.config problemInput.latestVersion
          problemInput.pkgVersion).isEmpty then 0 else 1) :=
  C10_ok_or_exit1_after_build problemInput "ts" rfl

/-- The final path component of a slash-separated path: the characters
after the last slash (the whole string when it contains no slash). -/
def basename (p : String) : String :=
  String.mk ((p.data.reverse.takeWhile (fun c => c != '/')).reverse)

/-- The selection rule as the claim words it (for comparison with the
`shell_cmd_choice` transcribed from the source): invoke the full configured
path when its basename equals the detected shell name, the bare detected
name otherwise. -/
def shell_cmd_choice_claimed (envShell detected : String) : String :=
  if basename envShell = detected then envShell else detected

/-- C4 counterexample: with configured shell path `/bin/notbash` and
detected shell `bash`, the basename (`notbash`) differs from the detected
name, so the claimed rule invokes the bare name `bash`, yet the code —
which tests a plain string suffix — invokes the full path `/bin/notbash`. -/
theorem C4_basename_counterexample :
    shell_cmd_choice "/bin/notbash" "bash" = "/bin/notbash" ∧
    basename "/bin/notbash" = "notbash" ∧
    shell_cmd_choice_claimed "/bin/notbash" "bash" = "bash" ∧
    shell_cmd_choice "/bin/notbash" "bash"
      ≠ shell_cmd_choice_claimed "/bin/notbash" "bash" := by
  decide

/-- C4 (amended): when shell detection succeeds, the probe invokes the full
configured default shell path exactly when that path ends with the detected
shell name (a string suffix test, not a basename comparison), and the bare
detected name otherwise; the section renders the chosen command followed by
its version line. -/
theorem C4_suffix_selection_rule (envShell detected : String)
    (vcmd : String → Except String String) :
    ∃ version : String,
      shell (some detected) envShell vcmd
        = styleBold "shell:\n"
          ++ indent ((if ends_with envShell detected then envShell else detected)
              ++ "\n" ++ version ++ "\n") := by
  refine ⟨match vcmd (shell_cmd_choice envShell detected) with
          | .ok v => v
          | .error e => "failed to get shell version: " ++ e, ?_⟩
  simp only [shell, shell_cmd_choice]

/-- C5: the config-files view renders exactly the discovery sequence
reversed — the rendered rows are the reversed row sequence of the discovery
order, reversing again recovers the discovery order (reverse is an
involution), and the reversed sequence is a permutation (same multiset) of
the original. -/
theorem C5_config_files_reversed (c : Config) :
    render_config_files c
      = styleBold "config files:\n"
        ++ String.join ((c.config_files.map config_file_row).reverse) ∧
    ((c.config_files.map config_file_row).reverse).reverse
      = c.config_files.map config_file_row ∧
    (c.config_files.reverse).Perm c.config_files := by
  refine ⟨?_, List.reverse_reverse _, List.reverse_perm _⟩
  unfold render_config_files
  rw [foldl_append_join, List.map_reverse]

/-- C6: for a non-empty registry, every rendered plugin name is padded to
the length of the longest name across the whole registry (the width is a
set-wide maximum independent of the row), and every registered plugin
contributes exactly one row regardless of install status. -/
theorem C6_registry_wide_padding (c : Config) (_h : c.plugins ≠ []) :
    (∀ p ∈ c.plugins,
      (pad_str p.name (max_plugin_name_len c)).length = max_plugin_name_len c) ∧
    render_plugins c
      = styleBold "plugins:\n"
        ++ String.join (c.plugins.map (fun p => plugin_row p (max_plugin_name_len c))) ∧
    (c.plugins.map (fun p => plugin_row p (max_plugin_name_len c))).length
      = c.plugins.length := by
  refine ⟨?_, ?_, by simp⟩
  · intro p hp
    exact pad_str_length _ _ (name_le_max c p hp)
  · unfold render_plugins
    rw [foldl_append_join]

def padConfig : Config :=
  { settings := "", config_files := [],
    plugins :=
      [{ name := "gcc", plugin_path := "/p/gcc", installed := true,
         remote_url := none, sha_short := .error "" },
       { name := "haskell", plugin_path := "/p/haskell", installed := true,
         remote_url := none, sha_short := .error "" },
       { name := "julia", plugin_path := "/p/julia", installed := true,
         remote_url := none, sha_short := .error "" }],
    activated := true }

/-- C6 witness: for name lengths [3, 7, 5] the registry-wide width is 7 and
every padded name field has width 7. -/
theorem C6_registry_wide_padding_witness :
    max_plugin_name_len padConfig = 7 ∧
    ∀ p ∈ padConfig.plugins,
      (pad_str p.name (max_plugin_name_len padConfig)).length
        = max_plugin_name_len padConfig :=
  ⟨by decide, (C6_registry_wide_padding padConfig (by simp [padConfig])).1⟩

/-- C7: every degraded collaborator failure renders a placeholder and the
report continues: failed shell detection renders `(unknown)`; a failed
version subprocess renders its error text in the version slot; a plugin
with a remote URL whose revision lookup fails renders `(unknown)` in the
revision slot; a plugin with no remote URL renders only the padded name;
and after a successful build the run always completes the report. -/
theorem C7_degraded_placeholders :
    (∀ envShell vcmd,
      shell none envShell vcmd = styleBold "shell:\n" ++ "  (unknown)\n") ∧
    (∀ sh envShell vcmd e, vcmd (shell_cmd_choice envShell sh) = .error e →
      shell (some sh) envShell vcmd
        = styleBold "shell:\n"
          ++ indent (shell_cmd_choice envShell sh ++ "\n"
              ++ ("failed to get shell version: " ++ e) ++ "\n")) ∧
    (∀ (p : Plugin) w url e, p.remote_url = some url → p.sha_short = .error e →
      plugin_row p w
        = "  " ++ pad_str p.name w ++ " " ++ url ++ "#" ++ "(unknown)" ++ "\n") ∧
    (∀ (p : Plugin) w, p.remote_url = none →
      plugin_row p w = "  " ++ pad_str p.name w ++ "\n") ∧
    (∀ (inp : DoctorInput) ts, inp.buildResult = .ok ts →
      ∃ out code, Doctor.run inp = .done out code) := by
  refine ⟨fun envShell vcmd => rfl, ?_, ?_, ?_, ?_⟩
  · intro sh envShell vcmd e he
    simp only [shell]
    rw [he]
  · intro p w url e hu hs
    simp only [plugin_row]
    rw [hu, hs]
  · intro p w hu
    simp only [plugin_row]
    rw [hu]
  · intro inp ts h
    rw [run_ok_eq inp ts h]
    cases (collect_checks inp.config inp.latestVersion inp.pkgVersion).isEmpty with
    | true => exact ⟨_, _, rfl⟩
    | false => exact ⟨_, _, rfl⟩

/-- C7 witness: concrete placeholders for each degraded case. -/
theorem C7_degraded_placeholders_witness :
    shell none "/bin/zsh" (fun _ => .error "spawn failed")
      = styleBold "shell:\n" ++ "  (unknown)\n" ∧
    shell (some "bash") "/bin/bash" (fun _ => .error "No such file")
      = styleBold "shell:\n"
        ++ indent (shell_cmd_choice "/bin/bash" "bash" ++ "\n"
            ++ ("failed to get shell version: " ++ "No such file") ++ "\n") ∧
    plugin_row nodePlugin 7
      = "  " ++ pad_str nodePlugin.name 7 ++ " " ++ "github.com/x/node"
          ++ "#" ++ "(unknown)" ++ "\n" ∧
    plugin_row goPlugin 7 = "  " ++ pad_str goPlugin.name 7 ++ "\n" :=
  ⟨C7_degraded_placeholders.1 "/bin/zsh" (fun _ => .error "spawn failed"),
   C7_degraded_placeholders.2.1 "bash" "/bin/bash" (fun _ => .error "No such file")
     "No such file" rfl,
   C7_degraded_placeholders.2.2.1 nodePlugin 7 "github.com/x/node" "git failed" rfl rfl,
   C7_degraded_placeholders.2.2.2.1 goPlugin 7 rfl⟩

/-- C8: the new-version check contributes exactly one problem — naming the
latest and the running version — when the release checker reports a newer
version, and contributes nothing when the checker reports nothing; the
check itself never fails (it is a total function of the reported value). -/
theorem C8_new_version_problem (c : Config) (pkg : String) :
    (∀ l, collect_checks c (some l) pkg
        = (c.plugins.filter (fun p => !p.installed)).map not_installed_msg
          ++ [new_version_msg l pkg]
          ++ (if c.activated then [] else [activation_msg])) ∧
    collect_checks c none pkg
      = (c.plugins.filter (fun p => !p.installed)).map not_installed_msg
        ++ (if c.activated then [] else [activation_msg]) ∧
    ∀ l, new_version_msg l pkg
        = "new rtx version " ++ l ++ " available, currently on " ++ pkg := by
  refine ⟨?_, ?_, fun l => rfl⟩
  · intro l
    rw [collect_checks_eq]
  · rw [collect_checks_eq]
    simp

/-- C9: the environment section lists exactly the variables whose keys
carry the reserved `RTX_` prefix, as an order-preserving sublist of the
process environment (no sorting), and renders the `(none)` marker exactly
when that filtered list is empty. -/
theorem C9_env_snapshot (vars : List (String × String)) :
    rtx_env_vars vars
      = styleBold "rtx environment variables:\n"
        ++ (if (vars.filter (fun kv => kv.1.startsWith "RTX_")).isEmpty
            then "  (none)\n" else "")
        ++ String.join
            ((vars.filter (fun kv => kv.1.startsWith "RTX_")).map env_var_row) ∧
    (vars.filter (fun kv => kv.1.startsWith "RTX_")).Sublist vars ∧
    ∀ kv, kv ∈ vars.filter (fun kv => kv.1.startsWith "RTX_")
      ↔ kv ∈ vars ∧ kv.1.startsWith "RTX_" = true := by
  refine ⟨?_, List.filter_sublist _, fun kv => List.mem_filter⟩
  simp only [rtx_env_vars]
  rw [foldl_append_join]
  cases hv : (vars.filter (fun kv => kv.1.startsWith "RTX_")).isEmpty <;>
    simp [String.append_empty, String.append_assoc]

def sampleEnv : List (String × String) :=
  [("RTX_DEBUG", "1"), ("PATH", "/usr/bin"), ("RTX_LOG_LEVEL", "info")]

/-- C9 witness: the section for a concrete environment holding two
namespaced variables and one foreign variable. -/
theorem C9_env_snapshot_witness :
    rtx_env_vars sampleEnv
      = styleBold "rtx environment variables:\n"
        ++ (if (sampleEnv.filter (fun kv => kv.1.startsWith "RTX_")).isEmpty
            then "  (none)\n" else "")
        ++ String.join
            ((sampleEnv.filter (fun kv => kv.1.startsWith "RTX_")).map env_var_row) :=
  (C9_env_snapshot sampleEnv).1

end Rtx
